import Mathlib

/-!
Shallow embedding of `src/scripts/import_sri_lankan_cities.py`, a script that
reads a JSON array of Sri Lankan city records and emits a SQL migration file.

Modelling choices:
* JSON scalar field values are `JsonVal` (null, string, number, boolean);
  numbers are rationals, which faithfully capture the comparisons
  (`== 0`, bounding-box `<=`) the script performs on parsed JSON numbers.
* A `CityRecord` holds the four fields the script reads (`name_en`,
  `latitude`, `longitude`, `id`); `none` means the key is absent
  (Python `dict.get` returns `None` then).
* Python exceptions are `Except String`; `print` diagnostics are collected
  in lists of strings.
* `os.system("date")` returns the integer exit status of the invoked command
  (Python semantics); the pure generator takes that integer as the
  `dateStatus` parameter.
-/

inductive JsonVal : Type where
  | null : JsonVal
  | str : String → JsonVal
  | num : ℚ → JsonVal
  | bool : Bool → JsonVal
deriving DecidableEq

structure CityRecord : Type where
  name_en : Option JsonVal
  latitude : Option JsonVal
  longitude : Option JsonVal
  id : Option JsonVal
deriving DecidableEq

deriving instance DecidableEq for Except

/-- Decimal rendering of a nonnegative rational whose denominator divides a
power of ten, matching Python float `repr` on such values: at least one
fractional digit (`80.0`), trailing zeros stripped otherwise (`6.9271`). -/
def renderQnn (q : ℚ) : String :=
  match (List.range 31).find? (fun k => 10 ^ k % q.den == 0) with
  | some k0 =>
      let k := max k0 1
      let scaled := q.num.natAbs * 10 ^ k / q.den
      let ds0 := Nat.toDigits 10 scaled
      let ds := if ds0.length ≤ k then List.replicate (k + 1 - ds0.length) '0' ++ ds0 else ds0
      let ip := ds.take (ds.length - k)
      let fp0 := (ds.drop (ds.length - k)).reverse.dropWhile (fun c => c == '0')
      let fp := if fp0.isEmpty then ['0'] else fp0.reverse
      String.mk (ip ++ '.' :: fp)
  | none => toString q

/-- Python `repr`/`str` of a float modelled on ℚ: a leading minus sign when
negative, then the decimal digits (`renderQnn` reads only `q.num.natAbs` and
`q.den`, so it is sign-agnostic). -/
def renderQ (q : ℚ) : String :=
  if q.num < 0 then "-" ++ renderQnn q else renderQnn q

/-- Python `str(value)` for a JSON scalar value: JSON integers load as Python
`int` (no decimal point), other numbers as `float`; `str(None)` is `"None"`. -/
def pyStr : JsonVal → String
  | JsonVal.null => "None"
  | JsonVal.str s => s
  | JsonVal.num q => if q.den = 1 then toString q.num else renderQ q
  | JsonVal.bool b => if b then "True" else "False"

/-- Python `str` of an `Option String` appearing in an f-string
(`str(None) = "None"`). -/
def pyOptStr : Option String → String
  | none => "None"
  | some s => s

/-- Python replace of a single quote by two single quotes: every
single-quote character in the string is doubled. -/
def pyEscape (s : String) : String :=
  String.mk (s.data.foldr (fun c acc => if c = '\x27' then '\x27' :: '\x27' :: acc else c :: acc) [])

/-- Embedding of `clean_value` (src lines 12-16): `None` (absent key or JSON
null, both of which reach the function as Python `None`), the literal string
`"NULL"`, and the empty string map to absent; any other value is coerced to
text with single quotes doubled. -/
def clean_value : Option JsonVal → Option String
  | none => none
  | some v =>
      if v = JsonVal.null ∨ v = JsonVal.str "NULL" ∨ v = JsonVal.str "" then none
      else some (pyEscape (pyStr v))

def digitsToNat (ds : List Char) : ℕ :=
  ds.foldl (fun n c => 10 * n + (c.toNat - 48)) 0

/-- Parse the unsigned mantissa of a Python float literal: digits with an
optional fractional part (`"6"`, `"6."`, `".5"`, `"6.5"`). Returns the
mantissa digits as a natural number, the power-of-ten denominator given by
the fractional length, and the unconsumed remainder. -/
def parseUnsigned (cs : List Char) : Option (ℕ × ℕ × List Char) :=
  let ds1 := cs.takeWhile Char.isDigit
  let r1 := cs.dropWhile Char.isDigit
  match r1 with
  | '.' :: r2 =>
      let ds2 := r2.takeWhile Char.isDigit
      let r3 := r2.dropWhile Char.isDigit
      if ds1.isEmpty ∧ ds2.isEmpty then none
      else some (digitsToNat (ds1 ++ ds2), 10 ^ ds2.length, r3)
  | _ => if ds1.isEmpty then none else some (digitsToNat ds1, 1, r1)

/-- Parse an optional exponent suffix (`e5`, `E-3`); the whole remainder must
be consumed. Returns the exponent (0 when there is none). -/
def parseExpPart (cs : List Char) : Option ℤ :=
  match cs with
  | [] => some 0
  | c :: rest =>
      if c = 'e' ∨ c = 'E' then
        let sgn : ℤ := match rest with
          | '-' :: _ => -1
          | _ => 1
        let rest2 := match rest with
          | '+' :: r => r
          | '-' :: r => r
          | r => r
        let ds := rest2.takeWhile Char.isDigit
        let r3 := rest2.dropWhile Char.isDigit
        if ds.isEmpty ∨ ¬ r3.isEmpty then none
        else some (sgn * (digitsToNat ds : ℤ))
      else none

def stripWS (cs : List Char) : List Char :=
  ((cs.dropWhile Char.isWhitespace).reverse.dropWhile Char.isWhitespace).reverse

/-- Python `float(s)` on a string: optional surrounding whitespace, optional
sign, decimal mantissa, optional exponent. (Non-finite literals such as
`"inf"`/`"nan"` are outside this model; JSON numbers are always finite.) -/
def pyFloatOfString (s : String) : Option ℚ :=
  let cs := stripWS s.data
  let isNeg : Bool := match cs with
    | '-' :: _ => true
    | _ => false
  let cs2 := match cs with
    | '+' :: r => r
    | '-' :: r => r
    | r => r
  match parseUnsigned cs2 with
  | none => none
  | some (m, d, rest) =>
      match parseExpPart rest with
      | none => none
      | some e =>
          let sm : ℤ := if isNeg then -(m : ℤ) else (m : ℤ)
          if 0 ≤ e then some (mkRat (sm * 10 ^ e.toNat) d)
          else some (mkRat sm (d * 10 ^ (-e).toNat))

/-- Python `float(x)` on a JSON scalar: numbers pass through, booleans become
0/1, strings are parsed, `None` raises `TypeError`; a non-numeric string
raises `ValueError` with the Python message text. -/
def pyFloat : JsonVal → Except String ℚ
  | JsonVal.num q => Except.ok q
  | JsonVal.bool b => Except.ok (if b then 1 else 0)
  | JsonVal.null =>
      Except.error "float() argument must be a string or a real number, not \x27NoneType\x27"
  | JsonVal.str s =>
      match pyFloatOfString s with
      | some q => Except.ok q
      | none => Except.error ("could not convert string to float: \x27" ++ s ++ "\x27")

/-- The fixed 21-name major-city set (src lines 58-63). -/
def major_cities : List String :=
  ["Colombo", "Kandy", "Galle", "Negombo", "Jaffna", "Trincomalee",
   "Batticaloa", "Ratnapura", "Anuradhapura", "Polonnaruwa", "Matara",
   "Hambantota", "Kurunegala", "Puttalam", "Badulla", "Bandarawela",
   "Nuwara Eliya", "Dambulla", "Sigiriya", "Vavuniya", "Mannar"]

/-- `is_major = name_en in major_cities if name_en else False` (src line 82):
Python truthiness makes `None` and the empty string falsy. -/
def rowIsMajor (n : Option String) : Bool :=
  match n with
  | none => false
  | some s => if s = "" then false else decide (s ∈ major_cities)

/-- `population = 100000 if is_major else None` (src line 85). -/
def rowPopulation (n : Option String) : Option ℕ :=
  if rowIsMajor n then some 100000 else none

/-- Rendering of the population slot of the tuple f-string, which applies
Python `or` to the population and the text NULL: `or` yields the unquoted
text NULL when the population is `None` (or the falsy 0). -/
def popRender : Option ℕ → String
  | none => "NULL"
  | some v => if v = 0 then "NULL" else toString v

/-- The part of the tuple f-string before the population field. Note that an
absent name renders as the quoted Python text None, never as SQL NULL. -/
def tuplePre (n : Option String) (lat lng : ℚ) : String :=
  "(\x27" ++ pyOptStr n ++ "\x27, \x27Sri Lanka\x27, \x27Sri Lanka\x27, "
    ++ renderQ lat ++ ", " ++ renderQ lng ++ ", "

/-- The part of the tuple f-string from the population field on. -/
def tupleSuffix (n : Option String) : String :=
  popRender (rowPopulation n) ++ ", " ++ (if rowIsMajor n then "true" else "false")
    ++ ", \x27Asia/Colombo\x27)"

/-- Embedding of the tuple f-string (src line 88). -/
def mkTuple (n : Option String) (lat lng : ℚ) : String :=
  tuplePre n lat lng ++ tupleSuffix n

/-- Diagnostic of src line 74. -/
def skipMsg (n : Option String) : String :=
  "Skipping " ++ pyOptStr n ++ " - invalid coordinates"

/-- Diagnostic of src line 79. -/
def warnMsg (n : Option String) (lat lng : ℚ) : String :=
  "Warning: " ++ pyOptStr n ++ " coordinates (" ++ renderQ lat ++ ", " ++ renderQ lng
    ++ ") outside Sri Lanka bounds"

/-- The id of the record as rendered in the error f-string: the raw id
value coerced to text, or the text unknown when the key is absent. -/
def idOf (c : CityRecord) : String :=
  match c.id with
  | none => "unknown"
  | some v => pyStr v

/-- Diagnostic of src line 92. -/
def errMsg (c : CityRecord) (e : String) : String :=
  "Error processing city " ++ idOf c ++ ": " ++ e

/-- The Sri Lanka bounding-box test of src line 78
(`5.5 <= latitude <= 10.0 and 79.0 <= longitude <= 82.0`; the float bound
5.5 is the rational 11/2). -/
def inSriLankaBounds (lat lng : ℚ) : Bool :=
  decide ((mkRat 11 2 ≤ lat ∧ lat ≤ 10) ∧ (79 ≤ lng ∧ lng ≤ 82))

/-- The body of the per-record `try` block (src lines 67-89): extract and
clean the name, coerce both coordinates to float (any failure propagates as
an exception), skip on a zero coordinate, warn (only) when out of bounds,
and otherwise produce the SQL tuple. Result: the optional tuple plus the
printed diagnostics. -/
def processCityE (c : CityRecord) : Except String (Option String × List String) :=
  let name_en := clean_value c.name_en
  match pyFloat (c.latitude.getD (JsonVal.num 0)) with
  | Except.error e => Except.error e
  | Except.ok latitude =>
    match pyFloat (c.longitude.getD (JsonVal.num 0)) with
    | Except.error e => Except.error e
    | Except.ok longitude =>
      if latitude = 0 ∨ longitude = 0 then
        Except.ok (none, [skipMsg name_en])
      else
        Except.ok (some (mkTuple name_en latitude longitude),
          if inSriLankaBounds latitude longitude then []
          else [warnMsg name_en latitude longitude])

/-- One loop iteration with its `except` handler (src lines 65-93): an
exception is caught, logged with the id of the record (or `"unknown"`), and the
record contributes no tuple. -/
def processCity (c : CityRecord) : Option String × List String :=
  match processCityE c with
  | Except.ok r => r
  | Except.error e => (none, [errMsg c e])

def batchStep (acc : List String × List String) (c : CityRecord) :
    List String × List String :=
  let r := processCity c
  (acc.1 ++ r.1.toList, acc.2 ++ r.2)

/-- The whole `for city in cities_data` loop: accumulated `values` list and
accumulated diagnostics, in input order. -/
def runBatch (cities : List CityRecord) : List String × List String :=
  cities.foldl batchStep ([], [])



/-- Variant of the per-record try-block with the bounds check (src lines
77-79) removed, for stating that the check affects no output tuple and no
generated SQL text. -/
def processCityNoCheckE (c : CityRecord) : Except String (Option String × List String) :=
  let name_en := clean_value c.name_en
  match pyFloat (c.latitude.getD (JsonVal.num 0)) with
  | Except.error e => Except.error e
  | Except.ok latitude =>
    match pyFloat (c.longitude.getD (JsonVal.num 0)) with
    | Except.error e => Except.error e
    | Except.ok longitude =>
      if latitude = 0 ∨ longitude = 0 then
        Except.ok (none, [skipMsg name_en])
      else
        Except.ok (some (mkTuple name_en latitude longitude), [])

/-- Loop iteration of the no-bounds-check variant. -/
def processCityNoCheck (c : CityRecord) : Option String × List String :=
  match processCityNoCheckE c with
  | Except.ok r => r
  | Except.error e => (none, [errMsg c e])

def batchStepNoCheck (acc : List String × List String) (c : CityRecord) :
    List String × List String :=
  let r := processCityNoCheck c
  (acc.1 ++ r.1.toList, acc.2 ++ r.2)

/-- The loop of the no-bounds-check variant. -/
def runBatchNoCheck (cities : List CityRecord) : List String × List String :=
  cities.foldl batchStepNoCheck ([], [])

/-- Header text of src lines 33-35 up to the total-cities count. -/
def sqlHeaderA : String :=
  "-- Migration: Import Complete Sri Lankan Cities Dataset\n-- Source: https://github.com/SKIDDOW/SriLankaCitiesDatabase\n-- Total Cities: "

/-- Header text of src line 36 up to the timestamp slot. The timestamp
slot is filled with the return value of os.system on the date command,
which is the integer exit status of that command, not its printed text. -/
def sqlHeaderB : String :=
  "\n-- Generated: "

/-- Header text from after the timestamp through the INSERT column list
(src lines 36-52). -/
def sqlHeaderC : String :=
  "\n\n-- Delete existing Sri Lankan cities to avoid duplicates\nDELETE FROM cities WHERE country = \x27Sri Lanka\x27;\n\n-- Insert complete Sri Lankan cities dataset\nINSERT INTO cities (\n    name,\n    country,\n    state,\n    latitude,\n    longitude,\n    population,\n    is_major_city,\n    timezone\n) VALUES\n"

/-- The upsert clause appended after the joined values (src lines 97-102). -/
def onConflictClause : String :=
  "\nON CONFLICT (name, country) DO UPDATE SET\n    latitude = EXCLUDED.latitude,\n    longitude = EXCLUDED.longitude,\n    state = EXCLUDED.state,\n    population = EXCLUDED.population,\n    is_major_city = EXCLUDED.is_major_city;\n\n"

/-- The static verification and sample queries (src lines 105-131). -/
def verificationQueries : String :=
  "-- Verify import\nSELECT\n    COUNT(*) as total_cities,\n    COUNT(CASE WHEN is_major_city THEN 1 END) as major_cities,\n    MIN(latitude) as min_lat,\n    MAX(latitude) as max_lat,\n    MIN(longitude) as min_lng,\n    MAX(longitude) as max_lng\nFROM cities\nWHERE country = \x27Sri Lanka\x27;\n\n-- Sample query: Find cities near Colombo (within 50km)\nSELECT name, latitude, longitude,\n    ROUND(ST_Distance(\n        geom,\n        ST_SetSRID(ST_MakePoint(79.8612, 6.9271), 4326)::geography\n    ) / 1000, 2) as distance_km\nFROM cities\nWHERE country = \x27Sri Lanka\x27\n    AND ST_DWithin(\n        geom,\n        ST_SetSRID(ST_MakePoint(79.8612, 6.9271), 4326)::geography,\n        50000\n    )\nORDER BY distance_km\nLIMIT 10;\n"

/-- The full SQL text assembled by `generate_sql_migration` (src lines
33-131): header with total count and the exit status of the date command, the
accepted tuples joined with `,\n`, the ON CONFLICT clause, and the static
queries. -/
def generateSql (cities : List CityRecord) (dateStatus : ℤ) : String :=
  sqlHeaderA ++ toString cities.length ++ sqlHeaderB ++ toString dateStatus ++ sqlHeaderC
    ++ String.intercalate ",\n" (runBatch cities).1
    ++ onConflictClause ++ verificationQueries

/-- SQL text of the no-bounds-check variant. -/
def generateSqlNoCheck (cities : List CityRecord) (dateStatus : ℤ) : String :=
  sqlHeaderA ++ toString cities.length ++ sqlHeaderB ++ toString dateStatus ++ sqlHeaderC
    ++ String.intercalate ",\n" (runBatchNoCheck cities).1
    ++ onConflictClause ++ verificationQueries

/-- Outcome of `generate_sql_migration` (src lines 18-142) after the file
reads/writes are made explicit: `parsed` is the result of reading and JSON
parsing the input (error means the read failed, reported and `False`
returned), `writeOk` tells whether writing the output file succeeds. Returns
the success flag and the text written to the output file. -/
def generate_sql_migration (parsed : Except String (List CityRecord))
    (dateStatus : ℤ) (writeOk : Bool) : Bool × Option String :=
  match parsed with
  | Except.error _ => (false, none)
  | Except.ok cities =>
      if writeOk then (true, some (generateSql cities dateStatus)) else (false, none)

/-- Exit status of `main` (src lines 144-173, via `sys.exit(main())`):
1 when the input file is missing or generation fails, 0 on success. -/
def mainExit (jsonExists : Bool) (parsed : Except String (List CityRecord))
    (dateStatus : ℤ) (writeOk : Bool) : ℕ :=
  if jsonExists then
    if (generate_sql_migration parsed dateStatus writeOk).1 then 0 else 1
  else 1

theorem strAppendAssoc (a b c : String) : a ++ b ++ c = a ++ (b ++ c) := by
  cases a with
  | mk da =>
    cases b with
    | mk db =>
      cases c with
      | mk dc =>
        show String.mk (da ++ db ++ dc) = String.mk (da ++ (db ++ dc))
        rw [List.append_assoc]

theorem processCity_of_floats (c : CityRecord) (lat lng : ℚ)
    (hlat : pyFloat (c.latitude.getD (JsonVal.num 0)) = Except.ok lat)
    (hlng : pyFloat (c.longitude.getD (JsonVal.num 0)) = Except.ok lng) :
    processCity c =
      if lat = 0 ∨ lng = 0 then (none, [skipMsg (clean_value c.name_en)])
      else (some (mkTuple (clean_value c.name_en) lat lng),
            if inSriLankaBounds lat lng then []
            else [warnMsg (clean_value c.name_en) lat lng]) := by
  unfold processCity processCityE
  rw [hlat, hlng]
  by_cases h : lat = 0 ∨ lng = 0
  · simp [h]
  · simp [h]

theorem processCity_value_some (c : CityRecord) (t : String)
    (h : (processCity c).1 = some t) :
    ∃ lat lng : ℚ,
      pyFloat (c.latitude.getD (JsonVal.num 0)) = Except.ok lat ∧
      pyFloat (c.longitude.getD (JsonVal.num 0)) = Except.ok lng ∧
      ¬ (lat = 0 ∨ lng = 0) ∧ t = mkTuple (clean_value c.name_en) lat lng := by
  unfold processCity processCityE at h
  cases hlat : pyFloat (c.latitude.getD (JsonVal.num 0)) with
  | error e => rw [hlat] at h; simp at h
  | ok lat =>
    cases hlng : pyFloat (c.longitude.getD (JsonVal.num 0)) with
    | error e => rw [hlat, hlng] at h; simp at h
    | ok lng =>
      rw [hlat, hlng] at h
      by_cases h0 : lat = 0 ∨ lng = 0
      · simp [h0] at h
      · simp only [h0, if_false] at h
        exact ⟨lat, lng, rfl, rfl, h0, by simpa using h.symm⟩

theorem foldl_batchStep (cities : List CityRecord) (acc : List String × List String) :
    (cities.foldl batchStep acc).1
      = acc.1 ++ cities.filterMap (fun c => (processCity c).1) := by
  induction cities generalizing acc with
  | nil => simp
  | cons c cs ih =>
    rw [List.foldl_cons, ih]
    cases h : (processCity c).1 <;>
      simp [batchStep, h, List.filterMap_cons, List.append_assoc]

theorem runBatch_values (cities : List CityRecord) :
    (runBatch cities).1 = cities.filterMap (fun c => (processCity c).1) := by
  simpa [runBatch] using foldl_batchStep cities ([], [])

theorem processCity_value_eq_noCheck (c : CityRecord) :
    (processCity c).1 = (processCityNoCheck c).1 := by
  unfold processCity processCityNoCheck processCityE processCityNoCheckE
  cases hlat : pyFloat (c.latitude.getD (JsonVal.num 0)) with
  | error e => rfl
  | ok lat =>
    cases hlng : pyFloat (c.longitude.getD (JsonVal.num 0)) with
    | error e => rfl
    | ok lng =>
      by_cases h0 : lat = 0 ∨ lng = 0
      · simp [h0]
      · simp [h0]

theorem foldl_batchStepNoCheck (cities : List CityRecord) (acc : List String × List String) :
    (cities.foldl batchStepNoCheck acc).1
      = acc.1 ++ cities.filterMap (fun c => (processCityNoCheck c).1) := by
  induction cities generalizing acc with
  | nil => simp
  | cons c cs ih =>
    rw [List.foldl_cons, ih]
    cases h : (processCityNoCheck c).1 <;>
      simp [batchStepNoCheck, h, List.filterMap_cons, List.append_assoc]

theorem runBatchNoCheck_values (cities : List CityRecord) :
    (runBatchNoCheck cities).1 = cities.filterMap (fun c => (processCityNoCheck c).1) := by
  simpa [runBatchNoCheck] using foldl_batchStepNoCheck cities ([], [])

theorem rowIsMajor_iff (n : Option String) :
    rowIsMajor n = true ↔ ∃ s, n = some s ∧ s ∈ major_cities := by
  cases n with
  | none => simp [rowIsMajor]
  | some s =>
    by_cases hs : s = ""
    · subst hs
      simp only [rowIsMajor, if_pos rfl]
      constructor
      · intro h; cases h
      · rintro ⟨s, hs, hmem⟩
        cases hs
        revert hmem; decide
    · simp [rowIsMajor, hs]

theorem tupleSuffix_major (n : Option String) (h : rowIsMajor n = true) :
    tupleSuffix n = "100000, true, \x27Asia/Colombo\x27)" := by
  unfold tupleSuffix rowPopulation
  rw [h]
  rfl

theorem tupleSuffix_not_major (n : Option String) (h : rowIsMajor n = false) :
    tupleSuffix n = "NULL, false, \x27Asia/Colombo\x27)" := by
  unfold tupleSuffix rowPopulation
  rw [h]
  rfl

/-- C1: the claim says an accepted record whose `name_en` is absent, the
literal string "NULL", or empty has its name field rendered as unquoted SQL
NULL. The code refutes this: `clean_value` returns Python `None`, and the
tuple f-string of src line 88 interpolates it inside single quotes, emitting
the quoted literal \x27None\x27. Evaluated here on the three failing inputs
(name absent, name "NULL", name ""), each with coordinates (6.5, 80.5). -/
theorem c1_absent_name_renders_quoted_None :
    (processCity ⟨none, some (JsonVal.num (mkRat 13 2)),
        some (JsonVal.num (mkRat 161 2)), none⟩).1
      = some "(\x27None\x27, \x27Sri Lanka\x27, \x27Sri Lanka\x27, 6.5, 80.5, NULL, false, \x27Asia/Colombo\x27)"
    ∧ (processCity ⟨some (JsonVal.str "NULL"), some (JsonVal.num (mkRat 13 2)),
        some (JsonVal.num (mkRat 161 2)), none⟩).1
      = some "(\x27None\x27, \x27Sri Lanka\x27, \x27Sri Lanka\x27, 6.5, 80.5, NULL, false, \x27Asia/Colombo\x27)"
    ∧ (processCity ⟨some (JsonVal.str ""), some (JsonVal.num (mkRat 13 2)),
        some (JsonVal.num (mkRat 161 2)), none⟩).1
      = some "(\x27None\x27, \x27Sri Lanka\x27, \x27Sri Lanka\x27, 6.5, 80.5, NULL, false, \x27Asia/Colombo\x27)" := by
  refine ⟨by decide, by decide, by decide⟩

/-- C2: for a record whose coordinate fields coerce to floats (absent fields
defaulting to 0), the record is excluded from the output exactly when the
coerced latitude or longitude is 0; in that case the only diagnostic is the
skip message and the batch continues: the values produced for any remaining
records are unchanged. -/
theorem c2_zero_coordinate_skip (c : CityRecord) (lat lng : ℚ)
    (hlat : pyFloat (c.latitude.getD (JsonVal.num 0)) = Except.ok lat)
    (hlng : pyFloat (c.longitude.getD (JsonVal.num 0)) = Except.ok lng) :
    ((processCity c).1 = none ↔ (lat = 0 ∨ lng = 0))
    ∧ ((lat = 0 ∨ lng = 0) →
        processCity c = (none, [skipMsg (clean_value c.name_en)])
        ∧ ∀ rest, (runBatch (c :: rest)).1 = (runBatch rest).1) := by
  have hp := processCity_of_floats c lat lng hlat hlng
  constructor
  · rw [hp]
    by_cases h0 : lat = 0 ∨ lng = 0
    · simp [h0]
    · simp [h0]
  · intro h0
    have hp0 : processCity c = (none, [skipMsg (clean_value c.name_en)]) := by
      rw [hp]; simp [h0]
    refine ⟨hp0, fun rest => ?_⟩
    have hv : (processCity c).1 = none := by rw [hp0]
    simp [runBatch_values, List.filterMap_cons, hv]

/-- Witness for C2 at the record with latitude 0, longitude 80. -/
theorem c2_zero_coordinate_skip_witness :
    (processCity ⟨none, some (JsonVal.num 0), some (JsonVal.num 80), none⟩).1 = none :=
  (c2_zero_coordinate_skip ⟨none, some (JsonVal.num 0), some (JsonVal.num 80), none⟩
    0 80 rfl rfl).1.mpr (Or.inl rfl)

/-- C3: for the output tuple of every accepted record, the population and
is_major_city fields render as `100000, true` exactly when the cleaned name
is an exact (case-sensitive) member of the fixed 21-name set, and as
`NULL, false` for any other name, including an absent one. -/
theorem c3_major_city_rendering (c : CityRecord) (t : String)
    (h : (processCity c).1 = some t) :
    (∀ s, clean_value c.name_en = some s → s ∈ major_cities →
        ∃ p, t = p ++ "100000, true, \x27Asia/Colombo\x27)")
    ∧ ((∀ s, clean_value c.name_en = some s → s ∉ major_cities) →
        ∃ p, t = p ++ "NULL, false, \x27Asia/Colombo\x27)") := by
  obtain ⟨lat, lng, hlat, hlng, h0, ht⟩ := processCity_value_some c t h
  subst ht
  constructor
  · intro s hs hmem
    have hm : rowIsMajor (clean_value c.name_en) = true :=
      (rowIsMajor_iff _).mpr ⟨s, hs, hmem⟩
    refine ⟨tuplePre (clean_value c.name_en) lat lng, ?_⟩
    unfold mkTuple
    rw [tupleSuffix_major _ hm]
  · intro hnot
    have hm : rowIsMajor (clean_value c.name_en) = false := by
      rcases Bool.eq_false_or_eq_true (rowIsMajor (clean_value c.name_en)) with hf | ht2
      case inl =>
        obtain ⟨s, hs, hmem⟩ := (rowIsMajor_iff _).mp hf
        exact absurd hmem (hnot s hs)
      case inr => exact ht2
    refine ⟨tuplePre (clean_value c.name_en) lat lng, ?_⟩
    unfold mkTuple
    rw [tupleSuffix_not_major _ hm]

/-- Witness for C3 at the accepted record named Colombo. -/
theorem c3_major_city_rendering_witness :
    ∃ p, "(\x27Colombo\x27, \x27Sri Lanka\x27, \x27Sri Lanka\x27, 6.9271, 79.8612, 100000, true, \x27Asia/Colombo\x27)"
      = p ++ "100000, true, \x27Asia/Colombo\x27)" :=
  (c3_major_city_rendering
    ⟨some (JsonVal.str "Colombo"), some (JsonVal.num (mkRat 69271 10000)),
     some (JsonVal.num (mkRat 798612 10000)), none⟩
    "(\x27Colombo\x27, \x27Sri Lanka\x27, \x27Sri Lanka\x27, 6.9271, 79.8612, 100000, true, \x27Asia/Colombo\x27)"
    (by decide)).1 "Colombo" rfl (by decide)

/-- C4: the values list the generator joins into the VALUES clause is
exactly the in-order filterMap of per-record processing over the input
array (one tuple per accepted record, skipped records omitted), and every
record with well-formed nonzero coordinates is accepted with exactly its
tuple. -/
theorem c4_values_in_input_order (cities : List CityRecord) (c : CityRecord) (lat lng : ℚ)
    (hlat : pyFloat (c.latitude.getD (JsonVal.num 0)) = Except.ok lat)
    (hlng : pyFloat (c.longitude.getD (JsonVal.num 0)) = Except.ok lng)
    (h1 : lat ≠ 0) (h2 : lng ≠ 0) :
    (runBatch cities).1 = cities.filterMap (fun x => (processCity x).1)
    ∧ (processCity c).1 = some (mkTuple (clean_value c.name_en) lat lng) := by
  refine ⟨runBatch_values cities, ?_⟩
  rw [processCity_of_floats c lat lng hlat hlng]
  simp [h1, h2]

/-- Witness for C4 at a singleton batch containing the Colombo record. -/
theorem c4_values_in_input_order_witness :
    (processCity ⟨some (JsonVal.str "Colombo"), some (JsonVal.num (mkRat 69271 10000)),
        some (JsonVal.num (mkRat 798612 10000)), none⟩).1
      = some (mkTuple (clean_value (some (JsonVal.str "Colombo")))
          (mkRat 69271 10000) (mkRat 798612 10000)) :=
  (c4_values_in_input_order
    [⟨some (JsonVal.str "Colombo"), some (JsonVal.num (mkRat 69271 10000)),
      some (JsonVal.num (mkRat 798612 10000)), none⟩]
    ⟨some (JsonVal.str "Colombo"), some (JsonVal.num (mkRat 69271 10000)),
     some (JsonVal.num (mkRat 798612 10000)), none⟩
    (mkRat 69271 10000) (mkRat 798612 10000) rfl rfl (by decide) (by decide)).2

/-- C5: when processing a record raises an exception (any failing float
coercion in this model), the exception is caught: the record yields no
tuple, the only diagnostic is the error message naming the id of the record
(`"unknown"` when the id is absent), and the values produced for the
remaining records are unchanged, so the batch is never aborted. -/
theorem c5_exception_skips_record (c : CityRecord) (rest : List CityRecord) (e : String)
    (h : processCityE c = Except.error e) :
    processCity c = (none, [errMsg c e])
    ∧ (runBatch (c :: rest)).1 = (runBatch rest).1
    ∧ (c.id = none → errMsg c e = "Error processing city unknown: " ++ e) := by
  have hp : processCity c = (none, [errMsg c e]) := by
    unfold processCity
    rw [h]
  refine ⟨hp, ?_, ?_⟩
  · have hv : (processCity c).1 = none := by rw [hp]
    simp [runBatch_values, List.filterMap_cons, hv]
  · intro hid
    unfold errMsg idOf
    rw [hid]
    rfl

/-- Witness for C5: a record with latitude "abc" is skipped with the caught
ValueError while the following valid record is still processed. -/
theorem c5_exception_skips_record_witness :
    (runBatch (⟨none, some (JsonVal.str "abc"), some (JsonVal.num 80), none⟩ ::
        [⟨some (JsonVal.str "Galle"), some (JsonVal.num (mkRat 61 10)),
          some (JsonVal.num (mkRat 801 10)), none⟩])).1
      = (runBatch [⟨some (JsonVal.str "Galle"), some (JsonVal.num (mkRat 61 10)),
          some (JsonVal.num (mkRat 801 10)), none⟩]).1 :=
  (c5_exception_skips_record
    ⟨none, some (JsonVal.str "abc"), some (JsonVal.num 80), none⟩
    [⟨some (JsonVal.str "Galle"), some (JsonVal.num (mkRat 61 10)),
      some (JsonVal.num (mkRat 801 10)), none⟩]
    "could not convert string to float: \x27abc\x27" rfl).2.1

/-- C6: a record with well-formed nonzero coordinates outside the
[5.5,10.0] x [79.0,82.0] rectangle only gets a warning diagnostic: it is
still accepted with exactly the tuple the no-bounds-check variant produces,
and the assembled SQL text of the generator equals that of the variant with
the check removed, for every input batch. -/
theorem c6_bounds_check_no_effect (cities : List CityRecord) (c : CityRecord) (lat lng : ℚ)
    (hlat : pyFloat (c.latitude.getD (JsonVal.num 0)) = Except.ok lat)
    (hlng : pyFloat (c.longitude.getD (JsonVal.num 0)) = Except.ok lng)
    (h0 : ¬ (lat = 0 ∨ lng = 0)) (hout : inSriLankaBounds lat lng = false) :
    processCity c = (some (mkTuple (clean_value c.name_en) lat lng),
                     [warnMsg (clean_value c.name_en) lat lng])
    ∧ (processCity c).1 = (processCityNoCheck c).1
    ∧ ∀ s, generateSql cities s = generateSqlNoCheck cities s := by
  refine ⟨?_, processCity_value_eq_noCheck c, ?_⟩
  · rw [processCity_of_floats c lat lng hlat hlng]
    simp [h0, hout]
  · intro s
    unfold generateSql generateSqlNoCheck
    have hb : (runBatch cities).1 = (runBatchNoCheck cities).1 := by
      rw [runBatch_values, runBatchNoCheck_values]
      have hf : (fun x => (processCity x).1) = (fun x => (processCityNoCheck x).1) :=
        funext processCity_value_eq_noCheck
      rw [hf]
    rw [hb]

/-- Witness for C6 at a record with out-of-bounds coordinates (20, 85). -/
theorem c6_bounds_check_no_effect_witness :
    processCity ⟨some (JsonVal.str "Far"), some (JsonVal.num 20), some (JsonVal.num 85), none⟩
      = (some (mkTuple (clean_value (some (JsonVal.str "Far"))) 20 85),
         [warnMsg (clean_value (some (JsonVal.str "Far"))) 20 85]) :=
  (c6_bounds_check_no_effect []
    ⟨some (JsonVal.str "Far"), some (JsonVal.num 20), some (JsonVal.num 85), none⟩
    20 85 rfl rfl (by decide) (by decide)).1

/-- C7: whenever `clean_value` does not map a value to absent, it returns
the text of the value with every single quote doubled, and concretely the name
O\x27Brien reaches the output tuple as O\x27\x27Brien inside the
single-quoted SQL literal. -/
theorem c7_quote_escaping (v : JsonVal) (h : clean_value (some v) ≠ none) :
    clean_value (some v) = some (pyEscape (pyStr v))
    ∧ pyEscape "O\x27Brien" = "O\x27\x27Brien"
    ∧ (processCity ⟨some (JsonVal.str "O\x27Brien"), some (JsonVal.num (mkRat 69 10)),
        some (JsonVal.num (mkRat 799 10)), none⟩).1
      = some "(\x27O\x27\x27Brien\x27, \x27Sri Lanka\x27, \x27Sri Lanka\x27, 6.9, 79.9, NULL, false, \x27Asia/Colombo\x27)" := by
  refine ⟨?_, by decide, by decide⟩
  unfold clean_value at h ⊢
  by_cases hv : v = JsonVal.null ∨ v = JsonVal.str "NULL" ∨ v = JsonVal.str ""
  · simp [hv] at h
  · simp [hv]

/-- Witness for C7 at the string value O\x27Brien. -/
theorem c7_quote_escaping_witness :
    clean_value (some (JsonVal.str "O\x27Brien"))
      = some (pyEscape (pyStr (JsonVal.str "O\x27Brien"))) :=
  (c7_quote_escaping (JsonVal.str "O\x27Brien") (by decide)).1

/-- C8: for a fixed input batch, the generated SQL text is a fixed prefix
and a fixed suffix around the timestamp slot: two runs differing only in the
date command status produce output identical except for that field, and
the order and content of the statements depend on nothing but the input. -/
theorem c8_deterministic_modulo_timestamp (cities : List CityRecord) :
    ∃ pre post : String, ∀ s : ℤ,
      generateSql cities s = pre ++ (toString s ++ post) := by
  refine ⟨sqlHeaderA ++ toString cities.length ++ sqlHeaderB,
          sqlHeaderC ++ String.intercalate ",\n" (runBatch cities).1
            ++ onConflictClause ++ verificationQueries, fun s => ?_⟩
  unfold generateSql
  simp only [strAppendAssoc]

theorem strEmptyAppend (x : String) : "" ++ x = x := by
  cases x with
  | mk d => rfl

theorem strAppendEmpty (x : String) : x ++ "" = x := by
  cases x with
  | mk d =>
    show String.mk (d ++ []) = String.mk d
    rw [List.append_nil]

/-- C9: the Generated field of the header embeds the integer returned by
`os.system("date")` - the exit status of the date command, not its text
output -
so when the command succeeds (status 0) the header reads `-- Generated: 0`. -/
theorem c9_timestamp_is_exit_status (cities : List CityRecord) (s : ℤ) (h : s = 0) :
    ∃ pre post : String,
      generateSql cities s = pre ++ ("-- Generated: 0" ++ post) := by
  subst h
  refine ⟨sqlHeaderA ++ toString cities.length ++ "\n",
          sqlHeaderC ++ String.intercalate ",\n" (runBatch cities).1
            ++ onConflictClause ++ verificationQueries, ?_⟩
  unfold generateSql
  rw [show sqlHeaderB = "\n" ++ "-- Generated: " from rfl,
      show (toString (0 : ℤ)) = "0" from rfl,
      show ("-- Generated: 0" : String) = "-- Generated: " ++ "0" from rfl]
  simp only [strAppendAssoc]

/-- Witness for C9 at the empty batch with exit status 0. -/
theorem c9_timestamp_is_exit_status_witness :
    ∃ pre post : String,
      generateSql [] 0 = pre ++ ("-- Generated: 0" ++ post) :=
  c9_timestamp_is_exit_status [] 0 rfl

set_option maxRecDepth 4000 in
/-- C10: when every record of a parsed batch is rejected (or the batch is
empty), the generator still succeeds: the process exit status is 0 and the
written file contains the DELETE statement and the INSERT header whose
empty VALUES list is immediately followed by the ON CONFLICT clause. -/
theorem c10_empty_accepted_full_output (cities : List CityRecord) (ts : ℤ)
    (h : ∀ c ∈ cities, (processCity c).1 = none) :
    mainExit true (Except.ok cities) ts true = 0
    ∧ ∃ sql, (generate_sql_migration (Except.ok cities) ts true).2 = some sql
        ∧ (∃ p q, sql = p ++ ("DELETE FROM cities WHERE country = \x27Sri Lanka\x27;" ++ q))
        ∧ (∃ p q, sql = p ++ (") VALUES\n\nON CONFLICT (name, country) DO UPDATE SET\n" ++ q)) := by
  have hv : (runBatch cities).1 = [] := by
    rw [runBatch_values]
    exact List.filterMap_eq_nil_iff.mpr h
  refine ⟨rfl, generateSql cities ts, rfl, ?_, ?_⟩
  · refine ⟨sqlHeaderA ++ toString cities.length ++ sqlHeaderB ++ toString ts
        ++ "\n\n-- Delete existing Sri Lankan cities to avoid duplicates\n",
      "\n\n-- Insert complete Sri Lankan cities dataset\nINSERT INTO cities (\n    name,\n    country,\n    state,\n    latitude,\n    longitude,\n    population,\n    is_major_city,\n    timezone\n) VALUES\n"
        ++ String.intercalate ",\n" (runBatch cities).1 ++ onConflictClause
        ++ verificationQueries, ?_⟩
    unfold generateSql
    rw [show sqlHeaderC
        = "\n\n-- Delete existing Sri Lankan cities to avoid duplicates\n"
          ++ ("DELETE FROM cities WHERE country = \x27Sri Lanka\x27;"
          ++ "\n\n-- Insert complete Sri Lankan cities dataset\nINSERT INTO cities (\n    name,\n    country,\n    state,\n    latitude,\n    longitude,\n    population,\n    is_major_city,\n    timezone\n) VALUES\n")
        from rfl]
    simp only [strAppendAssoc]
  · refine ⟨sqlHeaderA ++ toString cities.length ++ sqlHeaderB ++ toString ts
        ++ "\n\n-- Delete existing Sri Lankan cities to avoid duplicates\nDELETE FROM cities WHERE country = \x27Sri Lanka\x27;\n\n-- Insert complete Sri Lankan cities dataset\nINSERT INTO cities (\n    name,\n    country,\n    state,\n    latitude,\n    longitude,\n    population,\n    is_major_city,\n    timezone\n",
      "    latitude = EXCLUDED.latitude,\n    longitude = EXCLUDED.longitude,\n    state = EXCLUDED.state,\n    population = EXCLUDED.population,\n    is_major_city = EXCLUDED.is_major_city;\n\n"
        ++ verificationQueries, ?_⟩
    unfold generateSql
    rw [hv]
    rw [show String.intercalate ",\n" ([] : List String) = "" from rfl]
    rw [show sqlHeaderC
        = "\n\n-- Delete existing Sri Lankan cities to avoid duplicates\nDELETE FROM cities WHERE country = \x27Sri Lanka\x27;\n\n-- Insert complete Sri Lankan cities dataset\nINSERT INTO cities (\n    name,\n    country,\n    state,\n    latitude,\n    longitude,\n    population,\n    is_major_city,\n    timezone\n"
          ++ ") VALUES\n"
        from rfl,
      show onConflictClause
        = "\nON CONFLICT (name, country) DO UPDATE SET\n"
          ++ "    latitude = EXCLUDED.latitude,\n    longitude = EXCLUDED.longitude,\n    state = EXCLUDED.state,\n    population = EXCLUDED.population,\n    is_major_city = EXCLUDED.is_major_city;\n\n"
        from rfl,
      show (") VALUES\n\nON CONFLICT (name, country) DO UPDATE SET\n" : String)
        = ") VALUES\n" ++ "\nON CONFLICT (name, country) DO UPDATE SET\n"
        from rfl]
    simp only [strAppendAssoc, strAppendEmpty, strEmptyAppend]

/-- Witness for C10 at the empty input array. -/
theorem c10_empty_accepted_full_output_witness :
    mainExit true (Except.ok []) 0 true = 0 :=
  (c10_empty_accepted_full_output [] 0 (by simp)).1
